import Mathlib

/-!
# Verification of the Displacement Volume Analyzer core

A shallow embedding of the core logic of `src/streamlit_app.py`:
the conversion engine (`calculate_volume`), the durable JSON sample store
(`load_data`, `save_data`, `initialize_data` — embedded here as `init_data`),
and the add/delete handlers of the Data Manager tab.

Python floats are modelled as exact rationals (`ℚ`); the multiplier table
literals in the source are decimal literals, represented exactly.  The durable
JSON file is modelled as `Option Json` (`none` = file absent); Python
exceptions raised by the embedded code (`KeyError` on the table lookup,
`IndexError` on `list.pop`) are modelled as `Option`/error results.
-/

/-- A stored sample record, as the dicts `{'id': ..., 'weight': ..., 'unit': ...}`
kept in `st.session_state.samples` and in the JSON file. -/
structure Sample where
  id : String
  weight : ℚ
  unit : String
deriving Repr, DecidableEq

/-- The three target volumes returned by `calculate_volume`, and also the shape
of one row of the `conversions` table. -/
structure VolumeResult where
  mm3 : ℚ
  cm3 : ℚ
  in3 : ℚ
deriving Repr, DecidableEq

/-- The fixed `conversions` dict inside `calculate_volume`
(src/streamlit_app.py lines 109–114).  Dict lookup is partial: `none` models
the `KeyError` raised by `conversions[unit]` for an unknown key. -/
def conversions (unit : String) : Option VolumeResult :=
  if unit = "grams" then some ⟨1000, 1, 0.061023744⟩
  else if unit = "ounces" then some ⟨28316.8466, 28.3168466, 1.7295904⟩
  else if unit = "pounds" then some ⟨453592.37, 453.59237, 27.6806742⟩
  else if unit = "kilograms" then some ⟨1000000, 1000, 61.023744⟩
  else none

/-- `calculate_volume(weight, unit)` (src/streamlit_app.py lines 107–121):
looks up the row for `unit` and multiplies each factor by `weight`.
There is no validation of `weight` or `unit`; the only failure is the
`KeyError` of the lookup, modelled as `none`. -/
def calculate_volume (weight : ℚ) (unit : String) : Option VolumeResult :=
  (conversions unit).map fun results =>
    ⟨weight * results.mm3, weight * results.cm3, weight * results.in3⟩

/-- The four recognised unit strings, as offered by the `st.selectbox` widgets
(src/streamlit_app.py lines 168–172 and 269). -/
def unitValues : List String := ["grams", "ounces", "pounds", "kilograms"]

/-- JSON values, as produced by Python's `json` module for this app's data. -/
inductive Json where
  | str : String → Json
  | num : ℚ → Json
  | arr : List Json → Json
  | obj : List (String × Json) → Json
deriving Repr

/-- Encoding of one sample dict as written by `json.dump`. -/
def encodeSample (s : Sample) : Json :=
  .obj [("id", .str s.id), ("weight", .num s.weight), ("unit", .str s.unit)]

/-- Encoding of the whole sample list as written by `save_data`. -/
def encodeSamples (ss : List Sample) : Json :=
  .arr (ss.map encodeSample)

/-- Key lookup in a JSON object's field list (Python dict subscript). -/
def lookupField : List (String × Json) → String → Option Json
  | [], _ => none
  | (k, v) :: rest, key => if k = key then some v else lookupField rest key

/-- Reading one sample back out of a JSON value, via the subscripts
`sample['id']`, `sample['weight']`, `sample['unit']` the app performs. -/
def decodeSample (j : Json) : Option Sample :=
  match j with
  | .obj fields =>
    match lookupField fields "id", lookupField fields "weight",
        lookupField fields "unit" with
    | some (.str i), some (.num w), some (.str u) => some ⟨i, w, u⟩
    | _, _, _ => none
  | _ => none

/-- Reading each element of a JSON array as a sample. -/
def decodeSampleList : List Json → Option (List Sample)
  | [] => some []
  | j :: rest =>
    match decodeSample j, decodeSampleList rest with
    | some s, some ss => some (s :: ss)
    | _, _ => none

/-- Reading a whole sample list back out of a JSON value. -/
def decodeSamples (j : Json) : Option (List Sample) :=
  match j with
  | .arr items => decodeSampleList items
  | _ => none

/-- The durable-file schema of spec §6: one JSON object with exactly the keys
`id` (string), `weight` (number), `unit` (one of the four unit strings). -/
def sampleObjectSchema (j : Json) : Bool :=
  match j with
  | .obj fields =>
    fields.length == 3 &&
      (match lookupField fields "id", lookupField fields "weight",
          lookupField fields "unit" with
       | some (.str _), some (.num _), some (.str u) => unitValues.contains u
       | _, _, _ => false)
  | _ => false

/-- The durable-file schema of spec §6: a sequence of such objects. -/
def sampleArraySchema (j : Json) : Bool :=
  match j with
  | .arr items => items.all sampleObjectSchema
  | _ => false

/-- `load_data()` (src/streamlit_app.py lines 83–88): if the file exists its
parsed JSON content is returned as-is — no schema validation — and an absent
file yields the empty list `[]`. -/
def load_data (file : Option Json) : Json :=
  match file with
  | some j => j
  | none => .arr []

/-- `save_data(samples)` (src/streamlit_app.py lines 90–93): the file now
holds the JSON encoding of the full sample list. -/
def save_data (samples : List Sample) : Option Json :=
  some (encodeSamples samples)

/-- The five hard-coded default samples of `initialize_data`
(src/streamlit_app.py lines 98–104). -/
def default_samples : List Sample :=
  [⟨"Sample-001", 150, "grams"⟩,
   ⟨"Sample-002", 5.5, "ounces"⟩,
   ⟨"Sample-003", 2.3, "pounds"⟩,
   ⟨"Sample-004", 0.75, "kilograms"⟩,
   ⟨"Sample-005", 250, "grams"⟩]

/-- `initialize_data()` (src/streamlit_app.py lines 95–105): seeds the file
with the five defaults when and only when it does not exist. -/
def init_data (file : Option Json) : Option Json :=
  match file with
  | none => save_data default_samples
  | some j => some j

/-- The session-state initialisation (src/streamlit_app.py lines 124–126):
`initialize_data()` then `st.session_state.samples = load_data()`. -/
def init_session (file : Option Json) : Option Json × Json :=
  let file := init_data file
  (file, load_data file)

/-- In-memory sample list plus the durable file, the state mutated by the
Data Manager handlers. -/
structure AppState where
  samples : List Sample
  file : Option Json

/-- Outcome reported by the add-sample form handler. -/
inductive AddResult where
  | ok
  | duplicateId
  | emptyId
deriving Repr, DecidableEq

/-- Python's `str.isspace` character class, the whitespace removed by
`str.strip()`: the ASCII whitespace U+0009–U+000D and U+0020, the file/group/
record/unit separators U+001C–U+001F, next line U+0085, no-break space U+00A0,
Ogham space mark U+1680, the Unicode spaces U+2000–U+200A, the line and
paragraph separators U+2028 and U+2029, narrow no-break space U+202F, medium
mathematical space U+205F, and ideographic space U+3000. -/
def pythonIsSpace (c : Char) : Bool :=
  (9 ≤ c.toNat && c.toNat ≤ 13) || (28 ≤ c.toNat && c.toNat ≤ 32) ||
  c.toNat == 0x85 || c.toNat == 0xA0 || c.toNat == 0x1680 ||
  (0x2000 ≤ c.toNat && c.toNat ≤ 0x200A) ||
  c.toNat == 0x2028 || c.toNat == 0x2029 || c.toNat == 0x202F ||
  c.toNat == 0x205F || c.toNat == 0x3000

/-- Truthiness of `new_id.strip()`: stripping leading and trailing whitespace
leaves a non-empty string iff some character is not whitespace. -/
def stripTruthy (s : String) : Bool :=
  s.data.any (fun c => !(pythonIsSpace c))

/-- The add-sample form handler (src/streamlit_app.py lines 273–287):
`if new_id.strip():` guards everything; then the duplicate check
`any(s['id'] == new_id for s in st.session_state.samples)`; only on success
the sample dict is appended and `save_data` is called. -/
def add_sample (st : AppState) (new_id : String) (new_weight : ℚ)
    (new_unit : String) : AddResult × AppState :=
  if stripTruthy new_id then
    if st.samples.any (fun s => s.id == new_id) then
      (.duplicateId, st)
    else
      let samples := st.samples ++ [⟨new_id, new_weight, new_unit⟩]
      (.ok, ⟨samples, save_data samples⟩)
  else
    (.emptyId, st)

/-- Outcome of the delete-button handler. -/
inductive RemoveResult where
  | ok
  | indexError
deriving Repr, DecidableEq

/-- The delete-button handler (src/streamlit_app.py lines 305–310):
`st.session_state.samples.pop(idx)` then `save_data`.  For `idx` at or past
the end of the list, Python's `list.pop` raises `IndexError` before mutating
and before any write, modelled as `RemoveResult.indexError`. -/
def remove_sample (st : AppState) (idx : Nat) : RemoveResult × AppState :=
  if idx < st.samples.length then
    let samples := st.samples.eraseIdx idx
    (.ok, ⟨samples, save_data samples⟩)
  else
    (.indexError, st)

/-- One mutating operation on the store. -/
inductive StoreOp where
  | add (id : String) (weight : ℚ) (unit : String)
  | remove (idx : Nat)
  | persist

/-- State reached after one operation (results discarded); `persist` re-runs
`save_data` on the current list, as both handlers do after mutating. -/
def applyOp (st : AppState) (op : StoreOp) : AppState :=
  match op with
  | .add i w u => (add_sample st i w u).2
  | .remove idx => (remove_sample st idx).2
  | .persist => ⟨st.samples, save_data st.samples⟩

/-- State reached after a sequence of operations. -/
def runOps (st : AppState) (ops : List StoreOp) : AppState :=
  ops.foldl applyOp st

/-- The uniqueness invariant: no two stored samples share an `id`. -/
def idsNodup (st : AppState) : Prop :=
  (st.samples.map Sample.id).Nodup

/-- The application's initial state on first run (file absent): the seeded
defaults in memory, the seeded file on disk. -/
def initialState : AppState :=
  ⟨default_samples, init_data none⟩

/-! ## Helper lemmas -/

/-- Decoding inverts encoding on a single sample record. -/
theorem decodeSample_encodeSample (s : Sample) :
    decodeSample (encodeSample s) = some s := rfl

/-- Decoding inverts encoding on a list of sample records. -/
theorem decodeSampleList_map_encodeSample (ss : List Sample) :
    decodeSampleList (ss.map encodeSample) = some ss := by
  induction ss with
  | nil => rfl
  | cons s rest ih =>
    simp only [List.map_cons, decodeSampleList, decodeSample_encodeSample, ih]

/-- The duplicate check of the add handler decides membership of the new id
among the stored ids. -/
theorem any_beq_id_iff (l : List Sample) (i : String) :
    (l.any fun s => s.id == i) = true ↔ i ∈ l.map Sample.id := by
  simp [List.any_eq_true, List.mem_map, beq_iff_eq]

/-- `applyOp` preserves the id-uniqueness invariant. -/
theorem applyOp_idsNodup (st : AppState) (h : idsNodup st) (op : StoreOp) :
    idsNodup (applyOp st op) := by
  cases op with
  | add i w u =>
    simp only [applyOp, add_sample]
    by_cases hid : stripTruthy i = true
    · by_cases hdup : (st.samples.any fun s => s.id == i) = true
      · simp [hid, hdup, h]
      · have hmem : i ∉ st.samples.map Sample.id := fun hc =>
          hdup ((any_beq_id_iff st.samples i).mpr hc)
        simp only [hid, hdup, if_true, if_false, Bool.false_eq_true]
        simpa [idsNodup, List.nodup_append] using
          ⟨h, fun x hx hxi => hmem (List.mem_map.mpr ⟨x, hx, hxi⟩)⟩
    · simp [hid, h]
  | remove idx =>
    simp only [applyOp, remove_sample]
    by_cases hlt : idx < st.samples.length
    · simp only [hlt, if_true]
      exact ((st.samples.eraseIdx_sublist idx).map Sample.id).nodup h
    · simp [hlt, h]
  | persist => exact h

/-- `runOps` preserves the id-uniqueness invariant. -/
theorem runOps_idsNodup (ops : List StoreOp) :
    ∀ st : AppState, idsNodup st → idsNodup (runOps st ops) := by
  induction ops with
  | nil => exact fun st h => h
  | cons op rest ih =>
    exact fun st h => ih (applyOp st op) (applyOp_idsNodup st h op)

/-! ## Claim theorems -/

/-- C1: for every unit in {grams, ounces, pounds, kilograms} and every
non-negative weight `w`, `calculate_volume` returns the record whose
components are `w` times the fixed table multipliers (the cm³ column being
1, 28.3168466, 453.59237, 1000 respectively), and in particular
`calculate_volume 150 "grams" = {mm3 := 150000, cm3 := 150, in3 := 9.1535616}`.
In this exact-rational model the products are exact, hence within any
relative-error tolerance. -/
theorem conversion_table_correct :
    (∀ w : ℚ, 0 ≤ w →
      calculate_volume w "grams" = some ⟨w * 1000, w * 1, w * 0.061023744⟩ ∧
      calculate_volume w "ounces" =
        some ⟨w * 28316.8466, w * 28.3168466, w * 1.7295904⟩ ∧
      calculate_volume w "pounds" =
        some ⟨w * 453592.37, w * 453.59237, w * 27.6806742⟩ ∧
      calculate_volume w "kilograms" = some ⟨w * 1000000, w * 1000, w * 61.023744⟩) ∧
    calculate_volume 150 "grams" = some ⟨150000, 150, 9.1535616⟩ := by
  refine ⟨fun w _ => ⟨rfl, rfl, rfl, rfl⟩, ?_⟩
  have h : calculate_volume 150 "grams" =
      some ⟨150 * 1000, 150 * 1, 150 * 0.061023744⟩ := rfl
  rw [h]; norm_num

/-- Witness for C1 at the concrete non-negative weight 2. -/
theorem conversion_table_correct_witness :
    (0 : ℚ) ≤ 2 ∧
      calculate_volume 2 "grams" = some ⟨2 * 1000, 2 * 1, 2 * 0.061023744⟩ :=
  ⟨by norm_num, (conversion_table_correct.1 2 (by norm_num)).1⟩

/-- C6 counterexample: at the negative weight −1 with unit grams,
`calculate_volume` does not fail at all — it returns the ordinary numeric
record `{-1000, -1, -0.061023744}`, contradicting the claimed `InvalidWeight`
rejection of negative weights. -/
theorem convert_negative_weight_counterexample :
    calculate_volume (-1) "grams" = some ⟨-1000, -1, -0.061023744⟩ := by
  have h : calculate_volume (-1) "grams" =
      some ⟨(-1) * 1000, (-1) * 1, (-1) * 0.061023744⟩ := rfl
  rw [h]; norm_num

/-- C6 amended: `calculate_volume` performs no weight validation whatever:
for every unit in the enumerated set and every rational weight — negative
included — it succeeds, returning the weight multiplied by the table row.
(Non-negativity is enforced only by the UI widget's `min_value=0.0`.) -/
theorem convert_no_weight_validation (u : String) (hu : u ∈ unitValues)
    (w : ℚ) :
    ∃ f, conversions u = some f ∧
      calculate_volume w u = some ⟨w * f.mm3, w * f.cm3, w * f.in3⟩ := by
  simp only [unitValues, List.mem_cons, List.not_mem_nil, or_false] at hu
  rcases hu with rfl | rfl | rfl | rfl <;> exact ⟨_, rfl, rfl⟩

/-- Witness for C6's amended theorem at unit grams and weight −1. -/
theorem convert_no_weight_validation_witness :
    ∃ f, conversions "grams" = some f ∧
      calculate_volume (-1) "grams" =
        some ⟨(-1) * f.mm3, (-1) * f.cm3, (-1) * f.in3⟩ :=
  convert_no_weight_validation "grams" (by decide) (-1)

/-- C7: the table lookup fails (the `KeyError` of `conversions[unit]`,
modelled as `none`) for every unit outside the four enumerated values, and
for every unit inside the set `calculate_volume` succeeds with a result, for
every weight. -/
theorem convert_unit_domain (u : String) :
    (u ∉ unitValues → ∀ w : ℚ, calculate_volume w u = none) ∧
    (u ∈ unitValues → ∀ w : ℚ, ∃ r, calculate_volume w u = some r) := by
  constructor
  · intro hu w
    simp only [unitValues, List.mem_cons, List.not_mem_nil, or_false,
      not_or] at hu
    obtain ⟨h1, h2, h3, h4⟩ := hu
    simp [calculate_volume, conversions, h1, h2, h3, h4]
  · intro hu w
    simp only [unitValues, List.mem_cons, List.not_mem_nil, or_false] at hu
    rcases hu with rfl | rfl | rfl | rfl <;> exact ⟨_, rfl⟩

/-- Witness for C7 at the unknown unit "liters" and the known unit "grams". -/
theorem convert_unit_domain_witness :
    calculate_volume 5 "liters" = none ∧
      ∃ r, calculate_volume 5 "grams" = some r :=
  ⟨(convert_unit_domain "liters").1 (by decide) 5,
   (convert_unit_domain "grams").2 (by decide) 5⟩

/-- C9: strict monotonicity in weight — for every unit in the enumerated set
and weights `w1 < w2`, both conversions succeed and the mm³ components are
strictly ordered. -/
theorem convert_strict_mono (u : String) (hu : u ∈ unitValues) (w1 w2 : ℚ)
    (h : w1 < w2) :
    ∃ r1 r2, calculate_volume w1 u = some r1 ∧ calculate_volume w2 u = some r2 ∧
      r1.mm3 < r2.mm3 := by
  simp only [unitValues, List.mem_cons, List.not_mem_nil, or_false] at hu
  rcases hu with rfl | rfl | rfl | rfl <;>
    exact ⟨_, _, rfl, rfl, mul_lt_mul_of_pos_right h (by norm_num)⟩

/-- Witness for C9 at unit grams with weights 1 < 2. -/
theorem convert_strict_mono_witness :
    ∃ r1 r2, calculate_volume 1 "grams" = some r1 ∧
      calculate_volume 2 "grams" = some r2 ∧ r1.mm3 < r2.mm3 :=
  convert_strict_mono "grams" (by decide) 1 2 (by norm_num)

/-- C2 counterexample: the id `" "` (a single space, a non-empty string not
present in the empty store) is neither reported as a duplicate nor appended:
the handler's `if new_id.strip():` guard rejects it first, so the claimed
"otherwise appends" branch does not hold for every sample. -/
theorem add_blank_id_counterexample :
    (([] : List Sample).any fun s => s.id == " ") = false ∧
    add_sample ⟨[], none⟩ " " 10 "grams" = (.emptyId, ⟨[], none⟩) ∧
    (add_sample ⟨[], none⟩ " " 10 "grams").2.samples = [] :=
  ⟨rfl, rfl, rfl⟩

/-- C2 amended: provided the new id contains a non-whitespace character
(ids that are empty or whitespace-only are rejected beforehand with an
empty-id error and no mutation), the handler reports a duplicate and leaves
both memory and file untouched when the id is already stored, and otherwise
appends the new sample at the end and persists the extended list. -/
theorem add_sample_spec (st : AppState) (i : String) (w : ℚ) (u : String)
    (hid : stripTruthy i = true) :
    (i ∈ st.samples.map Sample.id → add_sample st i w u = (.duplicateId, st)) ∧
    (i ∉ st.samples.map Sample.id →
      add_sample st i w u = (.ok, ⟨st.samples ++ [⟨i, w, u⟩],
        save_data (st.samples ++ [⟨i, w, u⟩])⟩)) := by
  constructor
  · intro h
    simp [add_sample, hid, (any_beq_id_iff st.samples i).mpr h]
  · intro h
    have hfalse : (st.samples.any fun s => s.id == i) = false := by
      rcases Bool.eq_false_or_eq_true (st.samples.any fun s => s.id == i) with
        hb | hb
      · exact absurd ((any_beq_id_iff st.samples i).mp hb) h
      · exact hb
    simp [add_sample, hid, hfalse]

/-- Witness for C2's amended theorem: adding id "B" to a store holding only
id "A" appends and persists. -/
theorem add_sample_spec_witness :
    add_sample ⟨[⟨"A", 1, "grams"⟩], none⟩ "B" 2 "grams" =
      (.ok, ⟨[⟨"A", 1, "grams"⟩, ⟨"B", 2, "grams"⟩],
        save_data [⟨"A", 1, "grams"⟩, ⟨"B", 2, "grams"⟩]⟩) :=
  (add_sample_spec ⟨[⟨"A", 1, "grams"⟩], none⟩ "B" 2 "grams" (by decide)).2
    (by decide)

/-- C3: id uniqueness is an invariant — every single operation (add, remove,
persist) preserves it, and every state reachable from the seeded initial
state by a sequence of operations satisfies it. -/
theorem uniqueness_invariant :
    (∀ st : AppState, idsNodup st → ∀ op : StoreOp, idsNodup (applyOp st op)) ∧
    (∀ ops : List StoreOp, idsNodup (runOps initialState ops)) := by
  refine ⟨applyOp_idsNodup, fun ops => runOps_idsNodup ops initialState ?_⟩
  unfold idsNodup
  decide

/-- Witness for C3: the seeded state satisfies the invariant, and it is kept
after a concrete remove and a concrete add-then-remove run. -/
theorem uniqueness_invariant_witness :
    idsNodup initialState ∧
      idsNodup (applyOp initialState (.remove 0)) ∧
      idsNodup (runOps initialState [.add "X" 1 "grams", .remove 2]) :=
  ⟨by unfold idsNodup; decide,
    uniqueness_invariant.1 initialState (by unfold idsNodup; decide) (.remove 0),
    uniqueness_invariant.2 [.add "X" 1 "grams", .remove 2]⟩

/-- C4: deleting at a valid position removes exactly that entry — the result
is the prefix before it followed by the suffix after it, of length one less —
and persists; at an out-of-range position the `IndexError` is reported and
the state (memory and file) is unchanged. -/
theorem remove_sample_spec (st : AppState) (idx : Nat) :
    (idx < st.samples.length →
      remove_sample st idx =
        (.ok, ⟨st.samples.take idx ++ st.samples.drop (idx + 1),
          save_data (st.samples.take idx ++ st.samples.drop (idx + 1))⟩) ∧
      (remove_sample st idx).2.samples.length = st.samples.length - 1) ∧
    (¬ idx < st.samples.length → remove_sample st idx = (.indexError, st)) := by
  constructor
  · intro h
    have herase : st.samples.eraseIdx idx =
        st.samples.take idx ++ st.samples.drop (idx + 1) :=
      List.eraseIdx_eq_take_drop_succ st.samples idx
    constructor
    · simp [remove_sample, h, herase]
    · simp only [remove_sample, h, if_true]
      rw [herase]
      simp only [List.length_append, List.length_take, List.length_drop]
      omega
  · intro h
    simp [remove_sample, h]

/-- Witness for C4 on the seeded store: deleting position 0 drops the first
sample, deleting position 9 is out of range and changes nothing. -/
theorem remove_sample_spec_witness :
    remove_sample initialState 0 =
      (.ok, ⟨default_samples.take 0 ++ default_samples.drop 1,
        save_data (default_samples.take 0 ++ default_samples.drop 1)⟩) ∧
    remove_sample initialState 9 = (.indexError, initialState) :=
  ⟨((remove_sample_spec initialState 0).1 (by decide)).1,
   (remove_sample_spec initialState 9).2 (by decide)⟩

/-- C5: round-trip — persisting any sample list to the durable file and
loading it back yields a JSON value that decodes to exactly the persisted
list: same length, same id, weight and unit at each position, same order. -/
theorem persist_load_round_trip (ss : List Sample) :
    decodeSamples (load_data (save_data ss)) = some ss := by
  have h : decodeSamples (load_data (save_data ss)) =
      decodeSampleList (ss.map encodeSample) := rfl
  rw [h, decodeSampleList_map_encodeSample]

/-- C8 counterexample: a present file whose content `1` (valid JSON, not a
sequence of sample objects) violates the schema is returned by `load_data`
unchanged and without any error — the malformed content is silently passed
through, contradicting the claimed `IOFailure`/`InvalidFormat` report. -/
theorem load_no_validation_counterexample :
    sampleArraySchema (Json.num 1) = false ∧
    load_data (some (Json.num 1)) = Json.num 1 ∧
    decodeSamples (Json.num 1) = none :=
  ⟨rfl, rfl, rfl⟩

/-- C8 amended: an absent file loads as the empty sequence (not an error);
a present file's parsed content is returned exactly as-is, with no schema
validation of any kind — schema-violating content is silently returned. -/
theorem load_data_spec :
    load_data none = Json.arr [] ∧ ∀ j : Json, load_data (some j) = j :=
  ⟨rfl, fun _ => rfl⟩

/-- C10: on first run (durable file absent) initialisation writes exactly
the five default samples — ids Sample-001 … Sample-005, all distinct, all
weights non-negative, all units recognised — and the session then loads
those five samples. -/
theorem first_run_seeding :
    init_data none = some (encodeSamples default_samples) ∧
    (init_session none).2 = encodeSamples default_samples ∧
    decodeSamples ((init_session none).2) = some default_samples ∧
    default_samples.length = 5 ∧
    default_samples.map Sample.id =
      ["Sample-001", "Sample-002", "Sample-003", "Sample-004", "Sample-005"] ∧
    (default_samples.map Sample.id).Nodup ∧
    (∀ s ∈ default_samples, 0 ≤ s.weight ∧ s.unit ∈ unitValues) := by
  refine ⟨rfl, rfl, rfl, rfl, rfl, by decide, ?_⟩
  intro s hs
  simp only [default_samples, List.mem_cons, List.not_mem_nil, or_false] at hs
  rcases hs with rfl | rfl | rfl | rfl | rfl <;>
    exact ⟨by norm_num, by decide⟩

/-- Witness for C10 at the first default sample. -/
theorem first_run_seeding_witness :
    0 ≤ (Sample.mk "Sample-001" 150 "grams").weight ∧
      (Sample.mk "Sample-001" 150 "grams").unit ∈ unitValues :=
  first_run_seeding.2.2.2.2.2.2 ⟨"Sample-001", 150, "grams"⟩
    (by simp [default_samples])
